import Mathlib

/-!
# Verification of the DutchTestPrep practice/profile client logic

Shallow embedding of the client-side state logic of the `usePractice` and
`useProfile` React hooks (and the screens that consume them) of the
DutchTestPrep mobile front-end.

Modelling conventions:

* JS runtime values that flow through untyped JSON are modelled by `JValue`
  (arrays in this API always carry strings, so `JValue.arr` holds
  `List String`).
* JS numbers are modelled by `ℚ`.  The only numeric operations the embedded
  code performs are comparison, subtraction and `toFixed(2)`, all exact on
  the two-decimal difficulty levels the app manipulates.
* React `useState` cells are collected into explicit state records
  (`PracticeState`, `ProfileState`); each `async` handler becomes a pure
  state-transition function taking the HTTP outcome (the parsed response
  body, or the message of a thrown error) as an explicit environment
  parameter.
* `Alert.alert`, `console.log` and `setTimeout` perform no state change that
  the claims mention and are noted in comments where they occur.
-/

/-- Outcome of an awaited `axios` call: either the parsed response body, or a
thrown error carrying `error.message`. -/
inductive Outcome (α : Type) where
  | ok (body : α)
  | threw (msg : String)
deriving DecidableEq, Repr

/-- Untyped JSON/JS value as it flows through the hooks.  Every array this
API transports is an array of strings, so `arr` carries `List String`. -/
inductive JValue where
  | null
  | undef
  | str (s : String)
  | num (q : ℚ)
  | bool (b : Bool)
  | arr (elems : List String)
deriving DecidableEq, Repr

/-- JS truthiness.  (`NaN` is not modelled: no claim manipulates it.) -/
def JValue.truthy : JValue → Bool
  | .null => false
  | .undef => false
  | .str s => !s.isEmpty
  | .num q => decide (q ≠ 0)
  | .bool b => b
  | .arr _ => true

/-- JS `a || b`: `a` when truthy, else `b`. -/
def jsOr (a b : JValue) : JValue := if a.truthy then a else b

/-- `Array.isArray`. -/
def JValue.isArr : JValue → Bool
  | .arr _ => true
  | _ => false

/-- JS `!s.trim()`: trimming yields the empty (falsy) string exactly when
every character of `s` is whitespace. -/
def isBlank (s : String) : Bool := s.data.all Char.isWhitespace

/-- JS `>` on difficulty values.  Only numeric operands are modelled: every
difficulty the hook compares is a number (the claims' hypotheses pin this). -/
def jsGt : JValue → JValue → Bool
  | .num a, .num b => decide (b < a)
  | _, _ => false

/-- JS `<` on difficulty values, numeric operands only (see `jsGt`). -/
def jsLt : JValue → JValue → Bool
  | .num a, .num b => decide (a < b)
  | _, _ => false

/-- Absolute value, spelled with `if` so that `norm_num` evaluates it. -/
def jsAbs (q : ℚ) : ℚ := if q < 0 then -q else q

/-- The integer `n` with `n / 100` nearest to `q` for nonnegative `q`, ties
picked upward — the rounding ECMA-262 `Number.prototype.toFixed(2)` applies
to the absolute value of its receiver. -/
def fixed2Int (q : ℚ) : ℤ := ⌊q * 100 + 1 / 2⌋

/-- Sign part of `q.toFixed(2)`: per ECMA-262, a leading `"-"` is emitted
exactly when the receiver is negative (even when the magnitude rounds to
zero, e.g. `(-0.001).toFixed(2) = "-0.00"`). -/
def toFixed2Sign (q : ℚ) : String := if q < 0 then "-" else ""

/-- Magnitude part of `q.toFixed(2)`: the decimal digits of
`round(|q| * 100)` with a point before the last two. -/
def toFixed2Mag (q : ℚ) : String :=
  toString ((fixed2Int (jsAbs q)).toNat / 100) ++ "." ++
    (if (fixed2Int (jsAbs q)).toNat % 100 < 10 then "0" else "") ++
    toString ((fixed2Int (jsAbs q)).toNat % 100)

/-- JS `q.toFixed(2)`. -/
def toFixed2Str (q : ℚ) : String := toFixed2Sign q ++ toFixed2Mag q

/-- The numeric value denoted by `q.toFixed(2)`, i.e. the value of
`parseFloat(q.toFixed(2))`: `q` rounded to the nearest multiple of `1/100`,
ties away from zero. -/
def round2 (q : ℚ) : ℚ :=
  (if q < 0 then (-1 : ℚ) else 1) * ((fixed2Int (jsAbs q) : ℤ) : ℚ) / 100

example : toFixed2Str (7 / 2) = "3.50" := by
  norm_num [toFixed2Str, toFixed2Sign, toFixed2Mag, fixed2Int, jsAbs]
  all_goals decide

example : toFixed2Str (-1 / 1000) = "-0.00" := by
  norm_num [toFixed2Str, toFixed2Sign, toFixed2Mag, fixed2Int, jsAbs]
  all_goals decide

example : round2 (349 / 100) = 349 / 100 := by norm_num [round2, fixed2Int, jsAbs]

example : round2 (1 / 3) = 33 / 100 := by norm_num [round2, fixed2Int, jsAbs]

/-! ## Data model (`app/types/practice`, `constants/Config`) -/

/-- The authenticated user as delivered by `useAuth()`; only `_id` is read by
the hooks. -/
structure User where
  _id : String
deriving DecidableEq, Repr

/-- A practice item as the hooks store it.  Server-provided items flow in
unvalidated (`nextPractice` is enqueued as received), so every field is a
runtime `JValue`. -/
structure PracticeItem where
  _id : JValue
  content : JValue
  translation : JValue
  type : JValue
  difficulty : JValue
  complexity : JValue
  categories : JValue
  questionType : JValue
  options : JValue
deriving DecidableEq, Repr

/-- `response.data.data` of `POST /api/practice/generate`, field by field as
`generatePractice` reads it; an absent field is `JValue.undef`. -/
structure RawPractice where
  _id : JValue
  content : JValue
  translation : JValue
  type : JValue
  difficulty : JValue
  complexity : JValue
  categories : JValue
  questionType : JValue
  options : JValue
deriving DecidableEq, Repr

/-- The "safe copy of the data with fallbacks" that `generatePractice` builds
from a successful response (usePractice.ts lines 77–87). -/
def mkSafePractice (raw : RawPractice) : PracticeItem where
  _id := jsOr raw._id (.str "")
  content := jsOr raw.content (.str "")
  translation := jsOr raw.translation (.str "")
  type := jsOr raw.type (.str "vocabulary")
  difficulty := jsOr raw.difficulty (.num 1)
  complexity := jsOr raw.complexity (.num 1)
  categories := if raw.categories.isArr then raw.categories else .arr []
  questionType := jsOr raw.questionType (.str "")
  options := if raw.options.isArr then raw.options else .arr []

/-- `FeedbackResponse`: what `setFeedback` stores. -/
structure FeedbackResponse where
  isCorrect : Bool
  feedback : JValue
deriving DecidableEq, Repr

/-- `DifficultyDirection`. -/
inductive DifficultyDirection where
  | up
  | down
deriving DecidableEq, Repr

/-- `DifficultyTrend`. -/
inductive DifficultyTrend where
  | increasing
  | decreasing
  | stable
deriving DecidableEq, Repr

/-- `Config.STORAGE_KEYS.AUTH_TOKEN` (constants/Config.ts). -/
def authTokenKey : String := "desirabledifficult_auth_token"

/-! ## The `usePractice` state

One record collecting every `useState` cell of the hook, plus the
`previousDifficultyRef` mutable ref. -/

structure PracticeState where
  loading : Bool
  generatingBatch : Bool
  currentPractice : Option PracticeItem
  userAnswer : String
  feedback : Option FeedbackResponse
  errorMessage : Option String
  questionQueue : List PracticeItem
  adjusting : Bool
  difficultyTrend : DifficultyTrend
  previousDifficulty : Option JValue
  difficultyChange : Option String
  feedbackQuestion : String
  feedbackAnswer : Option String
  askingQuestion : Bool
deriving DecidableEq, Repr

/-! ## Response bodies

Each `axios` response body is modelled by a structure carrying exactly the
fields the hook reads.  `success` is the truthiness of
`response.data?.success`; an absent/falsy `data` object is `none`. -/

/-- Body of `POST /api/practice/generate`. -/
structure GenerateBody where
  success : Bool
  data : Option RawPractice
deriving DecidableEq, Repr

/-- `response.data.data.evaluation` of `POST /api/practice/submit`. -/
structure EvalData where
  isCorrect : JValue
  feedback : JValue
deriving DecidableEq, Repr

/-- `response.data.data` of `POST /api/practice/submit`. -/
structure SubmitData where
  nextPractice : Option PracticeItem
  evaluation : Option EvalData
deriving DecidableEq, Repr

/-- Body of `POST /api/practice/submit`. -/
structure SubmitBody where
  success : Bool
  data : Option SubmitData
deriving DecidableEq, Repr

/-- Body of `POST /api/practice/adjust-difficulty`.  `level` is
`response.data.data.level`; a malformed success body (missing `data` or a
non-numeric `level`) would raise inside the `try` and is covered by the
`Outcome.threw` environment instead. -/
structure AdjustBody where
  success : Bool
  level : ℚ
deriving DecidableEq, Repr

/-- The request body of `POST /api/practice/adjust-difficulty`: the hook
sends the direction and nothing else (usePractice.ts lines 211–213). -/
structure AdjustRequestBody where
  direction : DifficultyDirection
deriving DecidableEq, Repr

/-! ## `usePractice` transitions -/

/-- Result of one `generatePractice` call: the final state, whether the call
itself issued an HTTP request, and whether it invoked
`generatePracticeBatch()` in the background. -/
structure GenerateEffect where
  state : PracticeState
  requested : Bool
  batchTriggered : Bool
deriving DecidableEq, Repr

/-- The server-fetch path of `generatePractice` (usePractice.ts lines
60–99): `s` is the state after `setErrorMessage(null)` and the clearing of
the feedback-related cells.  `setLoading(true)` is observable only while the
request is in flight; the `finally` ends every path with `loading = false`. -/
def generateServerPath (resp : Outcome GenerateBody) (s : PracticeState) : GenerateEffect :=
  match resp with
  | .ok body =>
    match body.success, body.data with
    | true, some raw =>
      { state := { s with currentPractice := some (mkSafePractice raw), loading := false },
        requested := true, batchTriggered := false }
    | _, _ =>
      -- throw new Error('Invalid practice data received'), caught below
      { state := { s with
          errorMessage := some "Failed to generate practice: Invalid practice data received",
          loading := false },
        requested := true, batchTriggered := false }
  | .threw msg =>
    { state := { s with errorMessage := some ("Failed to generate practice: " ++ msg),
                        loading := false },
      requested := true, batchTriggered := false }

/-- `generatePractice(forceNew)` (usePractice.ts lines 27–100).

`user` is the `useAuth()` user; `resp` is what the awaited
`POST /api/practice/generate` would deliver.  The successive `setX` calls of
each path are flattened into one record update (each cell is written at most
once per path, so the net effect is identical); the trailing `finally` sets
`loading` to `false` on every path, including the early `return`s.
`Alert.alert` calls change no state.  The queue path reads `questionQueue`
and `generatingBatch` before any update touches them. -/
def generatePractice (user : Option User) (forceNew : Bool)
    (resp : Outcome GenerateBody) (s : PracticeState) : GenerateEffect :=
  match user, forceNew, s.questionQueue with
  | none, _, _ =>
    -- setErrorMessage(null); 'You must be logged in to practice'; finally
    { state := { s with errorMessage := none, loading := false },
      requested := false, batchTriggered := false }
  | some _, false, nextQuestion :: remainingQuestions =>
    -- clear error and feedback state, then use the next queued question;
    -- no HTTP request on this path
    { state := { s with errorMessage := none, feedback := none, userAnswer := "",
                        feedbackQuestion := "", feedbackAnswer := none,
                        askingQuestion := false,
                        currentPractice := some nextQuestion,
                        questionQueue := remainingQuestions, loading := false },
      requested := false,
      batchTriggered := decide (remainingQuestions.length < 2) && !s.generatingBatch }
  | some _, true, _ =>
    generateServerPath resp
      { s with errorMessage := none, feedback := none, userAnswer := "",
               feedbackQuestion := "", feedbackAnswer := none, askingQuestion := false }
  | some _, false, [] =>
    generateServerPath resp
      { s with errorMessage := none, feedback := none, userAnswer := "",
               feedbackQuestion := "", feedbackAnswer := none, askingQuestion := false }

/-- `generatePracticeBatch()` (usePractice.ts lines 103–130): returns the
final state and whether an HTTP request was issued.  On the non-early-return
path the success branch deliberately does nothing (lines 121–124: the
backend stores the batch; nothing is enqueued client-side), errors are
swallowed, and `finally` clears the flag; `resp` is therefore never
inspected. -/
def generatePracticeBatch (user : Option User) (_resp : Outcome GenerateBody)
    (s : PracticeState) : PracticeState × Bool :=
  match user, s.generatingBatch with
  | none, _ => (s, false)
  | some _, true => (s, false)
  | some _, false =>
    -- setGeneratingBatch(true); request; body ignored; finally flag := false
    ({ s with generatingBatch := false }, true)

/-- `submitAnswer()` (usePractice.ts lines 133–196): `setErrorMessage(null)`
happens first on every path, the successive `setX` calls are flattened into
one record update per path (each cell written at most once), and the
`finally` sets `loading := false` on every path including the early
`return`s. -/
def submitAnswer (resp : Outcome SubmitBody) (s : PracticeState) : PracticeState × Bool :=
  match s.currentPractice with
  | none =>
    -- 'No practice question available'
    ({ s with errorMessage := none, loading := false }, false)
  | some _ =>
    if s.userAnswer = "" || isBlank s.userAnswer then
      -- 'Please provide an answer' (`!userAnswer || !userAnswer.trim()`)
      ({ s with errorMessage := none, loading := false }, false)
    else
      match resp with
      | .threw msg =>
        ({ s with errorMessage := some ("Failed to submit answer: " ++ msg),
                  loading := false }, true)
      | .ok body =>
        -- enqueue the server-provided next practice item at the back of the
        -- queue when available
        let newQueue :=
          match body.success, body.data with
          | true, some d =>
            match d.nextPractice with
            | some n => s.questionQueue ++ [n]
            | none => s.questionQueue
          | _, _ => s.questionQueue
        -- compute the verdict and feedback text from the evaluation
        let isCorrect :=
          match body.success, body.data with
          | true, some d =>
            match d.evaluation with
            | some e => e.isCorrect.truthy   -- Boolean(evaluation.isCorrect)
            | none => false
          | _, _ => false
        let feedbackText : JValue :=
          match body.success, body.data with
          | true, some d =>
            match d.evaluation with
            | some e => if e.feedback = .undef then .str "" else e.feedback
            | none => .str ""
          | _, _ => .str ""
        ({ s with errorMessage := none, questionQueue := newQueue,
                  feedback := some { isCorrect := isCorrect, feedback := feedbackText },
                  loading := false }, true)

/-- `parseFloat(currentPractice?.difficulty ? currentPractice.difficulty.toFixed(2) : '1.00')`
(usePractice.ts lines 222 and 228): the numeric old-difficulty value used to
compute the displayed change.  Only numbers carry `toFixed` in JS; a
non-numeric truthy difficulty would raise a TypeError there (no claim
reaches that shape) and is mapped to the `'1.00'` fallback here. -/
def adjustOldValue (cp : Option PracticeItem) : ℚ :=
  match cp with
  | some p =>
    match p.difficulty with
    | .num q => if q = 0 then 1 else round2 q
    | _ => 1
  | none => 1

/-- The `'1.00'`-or-`toFixed(2)` string shown as the old level in the alert
(usePractice.ts line 222); same totalisation note as `adjustOldValue`. -/
def adjustOldStr (cp : Option PracticeItem) : String :=
  match cp with
  | some p =>
    match p.difficulty with
    | .num q => if q = 0 then "1.00" else toFixed2Str q
    | _ => "1.00"
  | none => "1.00"

/-- Result of one `adjustDifficulty` call: final state, the request body (if
a request was issued), the old/new level strings shown in the confirmation
alert, and whether `generatePractice(true)` was chained. -/
structure AdjustEffect where
  state : PracticeState
  request : Option AdjustRequestBody
  shownOldLevel : Option String
  shownNewLevel : Option String
  regenerated : Bool
deriving DecidableEq, Repr

/-- `adjustDifficulty(direction)` (usePractice.ts lines 199–256).

The chained `generatePractice(true)` call and the 15-second
`setTimeout(() => setDifficultyChange(null))` are recorded as flags, not
inlined; the `finally` clears `adjusting` on every path. -/
def adjustDifficulty (user : Option User) (direction : DifficultyDirection)
    (resp : Outcome AdjustBody) (s : PracticeState) : AdjustEffect :=
  -- setAdjusting(true) is undone by the finally's setAdjusting(false) on
  -- every path, so the final record sets `adjusting := false` once;
  -- setErrorMessage(null) happens before the request on every path
  match user with
  | none =>
    -- 'You must be logged in to adjust difficulty'; finally runs
    { state := { s with adjusting := false, errorMessage := none }, request := none,
      shownOldLevel := none, shownNewLevel := none, regenerated := false }
  | some _ =>
    match resp with
    | .threw msg =>
      { state := { s with errorMessage := some ("Failed to adjust difficulty: " ++ msg),
                          adjusting := false },
        request := some { direction := direction },
        shownOldLevel := none, shownNewLevel := none, regenerated := false }
    | .ok body =>
      if body.success then
        -- calculate and display the change
        let change := round2 body.level - adjustOldValue s.currentPractice
        -- `change.startsWith('-')`: toFixed emits "-" exactly when its input
        -- is negative and the magnitude part starts with a digit, so the
        -- test is on the sign component
        let sign := if toFixed2Sign change = "-" then "" else "+"
        { state := { s with
            -- update difficulty trend immediately for visual feedback
            difficultyTrend :=
              match direction with
              | .up => .increasing
              | .down => .decreasing,
            difficultyChange := some (sign ++ toFixed2Str change),
            adjusting := false, errorMessage := none },
          request := some { direction := direction },
          shownOldLevel := some (adjustOldStr s.currentPractice),
          shownNewLevel := some (toFixed2Str body.level),
          regenerated := true }
      else
        { state := { s with adjusting := false, errorMessage := none },
          request := some { direction := direction },
          shownOldLevel := none, shownNewLevel := none, regenerated := false }

/-- The difficulty-trend `useEffect` (usePractice.ts lines 339–352), run when
`currentPractice` changes: takes the new `currentPractice`, the ref cell and
the current trend, and returns the updated `(difficultyTrend, ref)` pair. -/
def updateDifficultyTrend (cp : Option PracticeItem) (prevRef : Option JValue)
    (trend : DifficultyTrend) : DifficultyTrend × Option JValue :=
  match cp with
  | some p =>
    if p.difficulty.truthy then
      let t :=
        match prevRef with
        | some prev =>
          if jsGt p.difficulty prev then .increasing
          else if jsLt p.difficulty prev then .decreasing
          else .stable
        | none => trend
      (t, some p.difficulty)
    else (trend, prevRef)
  | none => (trend, prevRef)

/-! ## `useProfile` (app/hooks/useProfile.ts) -/

/-- `response.data.data.user` as `fetchUserProfile` reads it: only
`motherLanguage` is consulted (`""` models both an absent and an empty
value, both falsy). -/
structure ProfileUser where
  motherLanguage : String
deriving DecidableEq, Repr

/-- `response.data.data` of `GET /api/user/profile`.  `user := none` models a
body without a `user` object: reading `.motherLanguage` off it throws and
lands in the `catch`. -/
structure ProfileData where
  user : Option ProfileUser
deriving DecidableEq, Repr

/-- Body of `GET /api/user/profile`; `data := none` models a success body
without a `data` field (`setProfile(undefined)` followed by a throw on
`.user`). -/
structure ProfileBody where
  success : Bool
  data : Option ProfileData
deriving DecidableEq, Repr

/-- The `useState` cells of `useProfile`. -/
structure ProfileState where
  loading : Bool
  profile : Option ProfileData
  error : Option String
  selectedLanguage : String
deriving DecidableEq, Repr

/-- `fetchUserProfile()` (useProfile.ts lines 37–65).  React state updates
queued before a throw still apply, so on a malformed success body the
profile is stored and the `catch` message is set; `finally` clears
`loading` on every path. -/
def fetchUserProfile (resp : Outcome ProfileBody) (s : ProfileState) : ProfileState :=
  -- setLoading(true) is undone by the finally's setLoading(false) on every
  -- path; setError(null) happens first and `error` is re-set where shown
  match resp with
  | .threw _ =>
    { s with error := some "Failed to load profile. Please try again.", loading := false }
  | .ok body =>
    if body.success then
      match body.data with
      | none =>
        -- setProfile(undefined); then `response.data.data.user` throws on
        -- undefined, caught below (the queued profile update still applies)
        { s with profile := none,
                 error := some "Failed to load profile. Please try again.", loading := false }
      | some d =>
        match d.user with
        | none =>
          -- setProfile applied; `.motherLanguage` on undefined throws, caught
          { s with profile := some d,
                   error := some "Failed to load profile. Please try again.", loading := false }
        | some u =>
          if u.motherLanguage ≠ "" then
            { s with profile := some d, error := none,
                     selectedLanguage := u.motherLanguage, loading := false }
          else
            { s with profile := some d, error := none, loading := false }
    else
      { s with error := some "Failed to load profile", loading := false }

/-! ## Token reads and request headers (claim C5)

A static catalogue of every backend request the screens and hooks issue,
with how each obtains the persisted auth token and what it puts in the
`Authorization` header. -/

/-- How a call site reads the persisted auth token. -/
inductive TokenSource where
  | storageGetItem          -- `await storage.getItem(...)` (utils/storage wrapper)
  | secureStoreGetItemAsync -- `await SecureStore.getItemAsync(...)` directly
deriving DecidableEq, Repr

/-- One backend request call site. -/
structure ApiCall where
  caller : String
  method : String
  path : String
  tokenSource : TokenSource
  tokenKey : String
  /-- the request carries `Authorization: Bearer ${token}` -/
  bearerAuthHeader : Bool
deriving DecidableEq, Repr

/-- Every backend request issued by the hooks and screens in the repository,
transcribed call site by call site. -/
def apiCalls : List ApiCall :=
  [ { caller := "usePractice.generatePractice", method := "POST",
      path := "/api/practice/generate", tokenSource := .storageGetItem,
      tokenKey := authTokenKey, bearerAuthHeader := true },
    { caller := "usePractice.generatePracticeBatch", method := "POST",
      path := "/api/practice/generate", tokenSource := .storageGetItem,
      tokenKey := authTokenKey, bearerAuthHeader := true },
    { caller := "usePractice.submitAnswer", method := "POST",
      path := "/api/practice/submit", tokenSource := .storageGetItem,
      tokenKey := authTokenKey, bearerAuthHeader := true },
    { caller := "usePractice.adjustDifficulty", method := "POST",
      path := "/api/practice/adjust-difficulty", tokenSource := .storageGetItem,
      tokenKey := authTokenKey, bearerAuthHeader := true },
    { caller := "usePractice.askFeedbackQuestion", method := "POST",
      path := "/api/practice/question", tokenSource := .storageGetItem,
      tokenKey := authTokenKey, bearerAuthHeader := true },
    { caller := "useProfile.fetchUserProfile", method := "GET",
      path := "/api/user/profile", tokenSource := .storageGetItem,
      tokenKey := authTokenKey, bearerAuthHeader := true },
    { caller := "useProfile.updateMotherLanguage", method := "PUT",
      path := "/api/auth/profile", tokenSource := .storageGetItem,
      tokenKey := authTokenKey, bearerAuthHeader := true },
    { caller := "ProfileScreen.fetchUserProfile", method := "GET",
      path := "/api/user/profile", tokenSource := .secureStoreGetItemAsync,
      tokenKey := authTokenKey, bearerAuthHeader := true } ]

/-! ## Hook interface (claim C8) -/

/-- The keys of the record literal `usePractice` returns
(usePractice.ts lines 361–384). -/
def usePracticeReturnKeys : List String :=
  [ "loading", "generatingBatch", "currentPractice", "userAnswer", "feedback",
    "errorMessage", "adjusting", "difficultyTrend", "difficultyChange",
    "feedbackQuestion", "feedbackAnswer", "askingQuestion",
    "setUserAnswer", "setFeedbackQuestion",
    "generatePractice", "submitAnswer", "handleNextPractice",
    "showAdjustmentDialog", "askFeedbackQuestion", "adjustDifficulty" ]

/-- The members `PracticeScreen` destructures from `usePractice()`
(app/(tabs)/practice.tsx lines 24–48). -/
def practiceScreenKeys : List String :=
  [ "loading", "generatingBatch", "currentPractice", "userAnswer", "feedback",
    "errorMessage", "adjusting", "difficultyTrend", "difficultyChange",
    "complexityChange", "feedbackQuestion", "feedbackAnswer", "askingQuestion",
    "adjustmentMode",
    "setUserAnswer", "setFeedbackQuestion",
    "generatePractice", "submitAnswer", "handleNextPractice",
    "showAdjustmentDialog", "askFollowUpQuestion" ]

/-! ## Spec-side definitions

Written from the claims' wording, for comparison against the embedded code. -/

/-- The old difficulty claim C3 refers to: the current practice item's
difficulty (when it is a number), taken as `1.00` when no item is present. -/
def specOldDifficulty (cp : Option PracticeItem) : Option ℚ :=
  match cp with
  | some p =>
    match p.difficulty with
    | .num q => some q
    | _ => none
  | none => some 1

/-- The verdict claim C4 attributes to the backend response: the boolean
coercion of `evaluation.isCorrect`, false when the response carries no
evaluation. -/
def specVerdict (body : SubmitBody) : Bool :=
  match body.data with
  | some d =>
    match d.evaluation with
    | some e => e.isCorrect.truthy
    | none => false
  | none => false

/-! ## Concrete fixtures (used by witness theorems) -/

/-- A well-formed practice item with the given numeric difficulty. -/
def sampleItem (d : ℚ) : PracticeItem where
  _id := .str "p1"
  content := .str "Hoe gaat het?"
  translation := .str "How are you?"
  type := .str "vocabulary"
  difficulty := .num d
  complexity := .num 1
  categories := .arr ["greetings"]
  questionType := .str "open"
  options := .arr []

/-- A quiescent hook state with one current practice item of difficulty 2. -/
def sampleState : PracticeState where
  loading := false
  generatingBatch := false
  currentPractice := some (sampleItem 2)
  userAnswer := "Goed"
  feedback := none
  errorMessage := none
  questionQueue := []
  adjusting := false
  difficultyTrend := .stable
  previousDifficulty := none
  difficultyChange := none
  feedbackQuestion := ""
  feedbackAnswer := none
  askingQuestion := false

/-- `sampleState` with two queued questions. -/
def sampleQueueState : PracticeState :=
  { sampleState with questionQueue := [sampleItem 3, sampleItem 4] }

/-- `sampleState` while a background batch generation is in flight. -/
def busyBatchState : PracticeState :=
  { sampleState with generatingBatch := true }

/-- A `RawPractice` with every field absent. -/
def rawAllUndef : RawPractice where
  _id := JValue.undef
  content := JValue.undef
  translation := JValue.undef
  type := JValue.undef
  difficulty := JValue.undef
  complexity := JValue.undef
  categories := JValue.undef
  questionType := JValue.undef
  options := JValue.undef

/-- A quiescent `useProfile` state. -/
def sampleProfileState : ProfileState where
  loading := false
  profile := none
  error := none
  selectedLanguage := "English"

/-! ## Helper lemmas -/

theorem truthy_ne_undef {a : JValue} (h : a.truthy = true) : a ≠ JValue.undef := by
  intro he
  subst he
  simp [JValue.truthy] at h

theorem jsOr_ne_undef (a b : JValue) (hb : b ≠ JValue.undef) : jsOr a b ≠ JValue.undef := by
  unfold jsOr
  by_cases h : a.truthy
  · rw [if_pos h]
    exact truthy_ne_undef h
  · rw [if_neg h]
    exact hb

/-! ## Claim theorems -/

/-- **C1.** For every call of `generatePractice` with `forceNew = false`
while the question queue is non-empty (and a logged-in user, without which
the hook does nothing), the hook sets `currentPractice` to the head of the
queue, replaces the queue with its tail, issues no HTTP request, and invokes
a background `generatePracticeBatch` if and only if the tail has fewer than
2 items and no batch generation is already in progress. -/
theorem generatePractice_queue_path (u : User) (resp : Outcome GenerateBody)
    (s : PracticeState) (q : PracticeItem) (rest : List PracticeItem)
    (hq : s.questionQueue = q :: rest) :
    (generatePractice (some u) false resp s).state.currentPractice = some q ∧
    (generatePractice (some u) false resp s).state.questionQueue = rest ∧
    (generatePractice (some u) false resp s).requested = false ∧
    (generatePractice (some u) false resp s).batchTriggered =
      (decide (rest.length < 2) && !s.generatingBatch) := by
  obtain ⟨l, gb, cp, ua, fb, em, qq, adj, dt, pd, dc, fq, fa, aq⟩ := s
  simp only at hq
  subst hq
  simp [generatePractice]

theorem generatePractice_queue_path_witness :
    (generatePractice (some ⟨"u1"⟩) false (.ok { success := false, data := none })
        sampleQueueState).state.currentPractice = some (sampleItem 3) ∧
    (generatePractice (some ⟨"u1"⟩) false (.ok { success := false, data := none })
        sampleQueueState).state.questionQueue = [sampleItem 4] ∧
    (generatePractice (some ⟨"u1"⟩) false (.ok { success := false, data := none })
        sampleQueueState).requested = false ∧
    (generatePractice (some ⟨"u1"⟩) false (.ok { success := false, data := none })
        sampleQueueState).batchTriggered = true := by
  have h := generatePractice_queue_path ⟨"u1"⟩ (.ok { success := false, data := none })
    sampleQueueState (sampleItem 3) [sampleItem 4] rfl
  exact ⟨h.1, h.2.1, h.2.2.1, by rw [h.2.2.2]; rfl⟩

/-- **C9** fails as stated: when `generatePracticeBatch` is entered while a
batch generation is already in progress, the guard `if (!user ||
generatingBatch) return` exits before the `try`/`finally`, so `generatingBatch`
is still `true` when that call completes — the claim said it is `false`
whenever the call completes. -/
theorem generatePracticeBatch_flag_stuck_on_reentry :
    (generatePracticeBatch (some { _id := "u1" }) (.ok { success := true, data := none })
        busyBatchState).1.generatingBatch = true := rfl

/-- **C9 (amended).** `generatePracticeBatch` changes no practice state other
than the `generatingBatch` flag — `questionQueue`, `currentPractice`,
`feedback`, `userAnswer` and `errorMessage` are identical before and after
every call — and `generatingBatch` is `false` when the call completes,
except when the call returned early (no user, or a batch generation already
in progress), in which case the flag is left unchanged. -/
theorem generatePracticeBatch_frame (u : Option User) (resp : Outcome GenerateBody)
    (s : PracticeState) :
    (generatePracticeBatch u resp s).1.questionQueue = s.questionQueue ∧
    (generatePracticeBatch u resp s).1.currentPractice = s.currentPractice ∧
    (generatePracticeBatch u resp s).1.feedback = s.feedback ∧
    (generatePracticeBatch u resp s).1.userAnswer = s.userAnswer ∧
    (generatePracticeBatch u resp s).1.errorMessage = s.errorMessage ∧
    (generatePracticeBatch u resp s).1.generatingBatch =
      (if u.isNone || s.generatingBatch then s.generatingBatch else false) := by
  obtain ⟨l, gb, cp, ua, fb, em, qq, adj, dt, pd, dc, fq, fa, aq⟩ := s
  cases u <;> cases gb <;> simp [generatePracticeBatch]

/-- **C10.** When `generatePractice` fetches from the server and the response
is marked successful with data, the installed `currentPractice` is the fully
defaulted safe copy: `categories` and `options` are always arrays (empty when
the response fields are not arrays), `difficulty`, `complexity` and `type`
fall back to `1` and `'vocabulary'` when falsy, the remaining string fields
fall back to `''`, and no field of the installed item is `undefined`. -/
theorem generatePractice_installed_item_defaulted
    (u : User) (s : PracticeState) (raw : RawPractice) :
    (generatePractice (some u) true (.ok { success := true, data := some raw })
        s).state.currentPractice = some (mkSafePractice raw) ∧
    (mkSafePractice raw).categories.isArr = true ∧
    (mkSafePractice raw).options.isArr = true ∧
    (raw.categories.isArr = false → (mkSafePractice raw).categories = .arr []) ∧
    (raw.options.isArr = false → (mkSafePractice raw).options = .arr []) ∧
    (raw.difficulty.truthy = false → (mkSafePractice raw).difficulty = .num 1) ∧
    (raw.complexity.truthy = false → (mkSafePractice raw).complexity = .num 1) ∧
    (raw.type.truthy = false → (mkSafePractice raw).type = .str "vocabulary") ∧
    (raw._id.truthy = false → (mkSafePractice raw)._id = .str "") ∧
    (raw.content.truthy = false → (mkSafePractice raw).content = .str "") ∧
    (raw.translation.truthy = false → (mkSafePractice raw).translation = .str "") ∧
    (raw.questionType.truthy = false → (mkSafePractice raw).questionType = .str "") ∧
    (mkSafePractice raw)._id ≠ .undef ∧
    (mkSafePractice raw).content ≠ .undef ∧
    (mkSafePractice raw).translation ≠ .undef ∧
    (mkSafePractice raw).type ≠ .undef ∧
    (mkSafePractice raw).difficulty ≠ .undef ∧
    (mkSafePractice raw).complexity ≠ .undef ∧
    (mkSafePractice raw).categories ≠ .undef ∧
    (mkSafePractice raw).questionType ≠ .undef ∧
    (mkSafePractice raw).options ≠ .undef := by
  refine ⟨?_, ?_, ?_, ?_, ?_, ?_, ?_, ?_, ?_, ?_, ?_, ?_, ?_, ?_, ?_, ?_, ?_, ?_, ?_, ?_, ?_⟩
  · obtain ⟨l, gb, cp, ua, fb, em, qq, adj, dt, pd, dc, fq, fa, aq⟩ := s
    simp [generatePractice, generateServerPath]
  · cases hc : raw.categories <;> simp [mkSafePractice, hc, JValue.isArr]
  · cases hc : raw.options <;> simp [mkSafePractice, hc, JValue.isArr]
  · intro h; simp [mkSafePractice, h]
  · intro h; simp [mkSafePractice, h]
  · intro h; simp [mkSafePractice, jsOr, h]
  · intro h; simp [mkSafePractice, jsOr, h]
  · intro h; simp [mkSafePractice, jsOr, h]
  · intro h; simp [mkSafePractice, jsOr, h]
  · intro h; simp [mkSafePractice, jsOr, h]
  · intro h; simp [mkSafePractice, jsOr, h]
  · intro h; simp [mkSafePractice, jsOr, h]
  · exact jsOr_ne_undef _ _ (by simp)
  · exact jsOr_ne_undef _ _ (by simp)
  · exact jsOr_ne_undef _ _ (by simp)
  · exact jsOr_ne_undef _ _ (by simp)
  · exact jsOr_ne_undef _ _ (by simp)
  · exact jsOr_ne_undef _ _ (by simp)
  · simp only [mkSafePractice]
    by_cases h : raw.categories.isArr <;> simp [h]
    intro he
    rw [he] at h
    simp [JValue.isArr] at h
  · exact jsOr_ne_undef _ _ (by simp)
  · simp only [mkSafePractice]
    by_cases h : raw.options.isArr <;> simp [h]
    intro he
    rw [he] at h
    simp [JValue.isArr] at h

theorem generatePractice_installed_item_defaulted_witness :
    (generatePractice (some { _id := "u1" }) true
        (.ok { success := true, data := some rawAllUndef })
        sampleState).state.currentPractice = some (mkSafePractice rawAllUndef) ∧
    (mkSafePractice rawAllUndef).difficulty = .num 1 ∧
    (mkSafePractice rawAllUndef).type = .str "vocabulary" ∧
    (mkSafePractice rawAllUndef).categories = .arr [] ∧
    (mkSafePractice rawAllUndef).content = .str "" := by
  have h := generatePractice_installed_item_defaulted { _id := "u1" } sampleState rawAllUndef
  exact ⟨h.1, h.2.2.2.2.2.1 rfl, h.2.2.2.2.2.2.2.1 rfl, h.2.2.2.1 rfl,
    h.2.2.2.2.2.2.2.2.2.1 rfl⟩

/-- **C6.** The question queue is FIFO: `submitAnswer` appends the
server-provided `nextPractice` (when present in a successful response) to
the back of the queue, leaving every previously queued item in place and in
order, and `generatePractice` removes only the front element. -/
theorem questionQueue_fifo
    (s : PracticeState) (p : PracticeItem) (body : SubmitBody) (d : SubmitData)
    (n : PracticeItem)
    (hcp : s.currentPractice = some p)
    (ha : isBlank s.userAnswer = false)
    (hb : body.success = true) (hd : body.data = some d) (hn : d.nextPractice = some n)
    (t : PracticeState) (u : User) (resp : Outcome GenerateBody)
    (q : PracticeItem) (rest : List PracticeItem)
    (ht : t.questionQueue = q :: rest) :
    (submitAnswer (.ok body) s).1.questionQueue = s.questionQueue ++ [n] ∧
    (generatePractice (some u) false resp t).state.currentPractice = some q ∧
    (generatePractice (some u) false resp t).state.questionQueue = rest := by
  have hne : s.userAnswer ≠ "" := by
    intro h
    rw [h] at ha
    simp [isBlank] at ha
  refine ⟨?_, ?_, ?_⟩
  · obtain ⟨l, gb, cp, ua, fb, em, qq, adj, dt, pd, dc, fq, fa, aq⟩ := s
    simp only at hcp ha hne
    subst hcp
    simp [submitAnswer, hne, ha, hb, hd, hn]
  · obtain ⟨l, gb, cp, ua, fb, em, qq, adj, dt, pd, dc, fq, fa, aq⟩ := t
    simp only at ht
    subst ht
    simp [generatePractice]
  · obtain ⟨l, gb, cp, ua, fb, em, qq, adj, dt, pd, dc, fq, fa, aq⟩ := t
    simp only at ht
    subst ht
    simp [generatePractice]

theorem questionQueue_fifo_witness :
    (submitAnswer
        (.ok { success := true,
               data := some { nextPractice := some (sampleItem 3), evaluation := none } })
        sampleState).1.questionQueue = [sampleItem 3] ∧
    (generatePractice (some { _id := "u1" }) false
        (.ok { success := false, data := none })
        sampleQueueState).state.currentPractice = some (sampleItem 3) ∧
    (generatePractice (some { _id := "u1" }) false
        (.ok { success := false, data := none })
        sampleQueueState).state.questionQueue = [sampleItem 4] := by
  have h := questionQueue_fifo sampleState (sampleItem 2)
    { success := true,
      data := some { nextPractice := some (sampleItem 3), evaluation := none } }
    { nextPractice := some (sampleItem 3), evaluation := none }
    (sampleItem 3) rfl (by decide) rfl rfl rfl
    sampleQueueState { _id := "u1" } (.ok { success := false, data := none })
    (sampleItem 3) [sampleItem 4] rfl
  exact ⟨by simpa [sampleState] using h.1, h.2.1, h.2.2⟩

/-- **C2.** Whenever `currentPractice` changes to an item whose difficulty
is truthy (a non-zero number) and a previous difficulty has already been
recorded, the trend effect sets `difficultyTrend` to `'increasing'` if the
new difficulty is strictly greater than the recorded one, `'decreasing'` if
strictly smaller, `'stable'` if equal, and then records the new item's
difficulty in the ref. -/
theorem difficultyTrend_update
    (p : PracticeItem) (d prev : ℚ) (tr : DifficultyTrend)
    (hd : p.difficulty = .num d) (hd0 : d ≠ 0) :
    updateDifficultyTrend (some p) (some (.num prev)) tr =
      ((if prev < d then .increasing else if d < prev then .decreasing else .stable),
       some (.num d)) := by
  simp [updateDifficultyTrend, hd, JValue.truthy, hd0, jsGt, jsLt]

theorem difficultyTrend_update_witness :
    updateDifficultyTrend (some (sampleItem 3)) (some (.num 2)) .stable
      = (.increasing, some (.num 3)) := by
  have h := difficultyTrend_update (sampleItem 3) 3 2 .stable rfl (by norm_num)
  rw [h]
  norm_num

/-- **C4.** Answer grading is server-side: for every call of `submitAnswer`
with a current practice item, a non-blank answer and a successful response,
the stored `feedback.isCorrect` equals the boolean coercion of the
`evaluation.isCorrect` field of the backend response (`specVerdict`), and is
false when the response carries no evaluation; the right-hand side depends
only on the response body, never on `userAnswer` or the practice content. -/
theorem submitAnswer_server_verdict
    (s : PracticeState) (p : PracticeItem) (body : SubmitBody)
    (hcp : s.currentPractice = some p) (ha : isBlank s.userAnswer = false)
    (hb : body.success = true) :
    Option.map (fun f => f.isCorrect) (submitAnswer (.ok body) s).1.feedback
      = some (specVerdict body) := by
  have hne : s.userAnswer ≠ "" := by
    intro h
    rw [h] at ha
    simp [isBlank] at ha
  obtain ⟨l, gb, cp, ua, fb, em, qq, adj, dt, pd, dc, fq, fa, aq⟩ := s
  simp only at hcp ha hne
  subst hcp
  rcases body with ⟨bs, bd⟩
  simp only at hb
  subst hb
  rcases bd with _ | ⟨np, ev⟩
  · simp [submitAnswer, specVerdict, hne, ha]
  · rcases ev with _ | e
    · simp [submitAnswer, specVerdict, hne, ha]
    · simp [submitAnswer, specVerdict, hne, ha]

theorem submitAnswer_server_verdict_witness :
    Option.map (fun f => f.isCorrect)
      (submitAnswer
        (.ok { success := true,
               data := some { nextPractice := none,
                              evaluation := some { isCorrect := .bool true,
                                                   feedback := .undef } } })
        sampleState).1.feedback = some true := by
  have h := submitAnswer_server_verdict sampleState (sampleItem 2)
    { success := true,
      data := some { nextPractice := none,
                     evaluation := some { isCorrect := .bool true, feedback := .undef } } }
    rfl (by decide) rfl
  rw [h]
  rfl

/-- **C7.** `fetchUserProfile` stores the response's `data` field in the
profile state exactly when the response marks success; when `success` is
false it sets the error state and leaves the profile unchanged; when the
request throws it sets an error message and leaves the profile unchanged;
and in every case `loading` is false once the call completes. -/
theorem fetchUserProfile_result (s : ProfileState) (resp : Outcome ProfileBody) :
    (fetchUserProfile resp s).loading = false ∧
    (∀ body, resp = .ok body → body.success = true →
      (fetchUserProfile resp s).profile = body.data) ∧
    (∀ body, resp = .ok body → body.success = false →
      (fetchUserProfile resp s).error = some "Failed to load profile" ∧
      (fetchUserProfile resp s).profile = s.profile) ∧
    (∀ msg, resp = .threw msg →
      (fetchUserProfile resp s).error = some "Failed to load profile. Please try again." ∧
      (fetchUserProfile resp s).profile = s.profile) := by
  rcases resp with ⟨bs, bd⟩ | msg
  · refine ⟨?_, ?_, ?_, ?_⟩
    · rcases bs <;> rcases bd with _ | ⟨_ | u⟩ <;>
        simp [fetchUserProfile] <;>
        by_cases hml : u.motherLanguage = "" <;> simp [hml]
    · rintro body h ht
      cases h
      simp only at ht
      subst ht
      rcases bd with _ | ⟨_ | u⟩ <;> simp [fetchUserProfile] <;>
        by_cases hml : u.motherLanguage = "" <;> simp [hml]
    · rintro body h hf
      cases h
      simp only at hf
      subst hf
      simp [fetchUserProfile]
    · rintro msg h
      cases h
  · refine ⟨?_, ?_, ?_, ?_⟩
    · simp [fetchUserProfile]
    · rintro body h
      cases h
    · rintro body h
      cases h
    · rintro m h
      cases h
      simp [fetchUserProfile]

theorem fetchUserProfile_result_witness :
    (fetchUserProfile
        (.ok { success := true, data := some { user := some { motherLanguage := "Dutch" } } })
        sampleProfileState).profile
      = some { user := some { motherLanguage := "Dutch" } } ∧
    (fetchUserProfile (.ok { success := false, data := none }) sampleProfileState).error
      = some "Failed to load profile" ∧
    (fetchUserProfile (.threw "Network Error") sampleProfileState).error
      = some "Failed to load profile. Please try again." ∧
    (fetchUserProfile (.threw "Network Error") sampleProfileState).loading = false := by
  refine ⟨?_, ?_, ?_, ?_⟩
  · exact (fetchUserProfile_result sampleProfileState
      (.ok { success := true,
             data := some { user := some { motherLanguage := "Dutch" } } })).2.1 _ rfl rfl
  · exact ((fetchUserProfile_result sampleProfileState
      (.ok { success := false, data := none })).2.2.1 _ rfl rfl).1
  · exact ((fetchUserProfile_result sampleProfileState
      (.threw "Network Error")).2.2.2 _ rfl).1
  · exact (fetchUserProfile_result sampleProfileState (.threw "Network Error")).1

/-- **C5** fails as stated: not every read of the persisted auth token goes
through the `storage.getItem` wrapper — `ProfileScreen.fetchUserProfile`
(the profile screen) reads it with `SecureStore.getItemAsync` directly. -/
theorem tokenRead_not_all_via_storage :
    ¬ ∀ c ∈ apiCalls, c.tokenSource = TokenSource.storageGetItem := by decide

/-- **C5 (amended).** Every backend request issued by the screens and hooks
reads the persisted auth token under the `AUTH_TOKEN` storage key and
attaches it as a `Bearer` Authorization header; the read goes through the
`storage.getItem` wrapper everywhere except in `ProfileScreen.fetchUserProfile`,
which calls `SecureStore.getItemAsync` directly. -/
theorem apiCalls_auth_discipline :
    ∀ c ∈ apiCalls,
      c.tokenKey = authTokenKey ∧ c.bearerAuthHeader = true ∧
      (c.tokenSource = TokenSource.storageGetItem ∨
        c.caller = "ProfileScreen.fetchUserProfile") := by decide

theorem apiCalls_auth_discipline_witness :
    ({ caller := "usePractice.generatePractice", method := "POST",
       path := "/api/practice/generate", tokenSource := .storageGetItem,
       tokenKey := authTokenKey, bearerAuthHeader := true } : ApiCall) ∈ apiCalls ∧
    ({ caller := "usePractice.generatePractice", method := "POST",
       path := "/api/practice/generate", tokenSource := .storageGetItem,
       tokenKey := authTokenKey, bearerAuthHeader := true } : ApiCall).tokenKey
      = authTokenKey := by
  refine ⟨by decide, ?_⟩
  exact (apiCalls_auth_discipline _ (by decide)).1

/-- **C8** fails against the code: `PracticeScreen` destructures
`askFollowUpQuestion`, `complexityChange` and `adjustmentMode` from
`usePractice()`, but the record the hook returns defines none of them (it
exports `askFeedbackQuestion` and no complexity/adjustment-mode state), so
these destructured members are `undefined`. -/
theorem practiceScreen_missing_members :
    "askFollowUpQuestion" ∈ practiceScreenKeys ∧
    "askFollowUpQuestion" ∉ usePracticeReturnKeys ∧
    "complexityChange" ∈ practiceScreenKeys ∧
    "complexityChange" ∉ usePracticeReturnKeys ∧
    "adjustmentMode" ∈ practiceScreenKeys ∧
    "adjustmentMode" ∉ usePracticeReturnKeys ∧
    ¬ (∀ k ∈ practiceScreenKeys, k ∈ usePracticeReturnKeys) := by decide

theorem fixed2Int_nonneg (q : ℚ) (hq : 0 ≤ q) : 0 ≤ fixed2Int q := by
  unfold fixed2Int
  have h : (0:ℚ) ≤ q * 100 + 1 / 2 := by positivity
  exact Int.le_floor.mpr (by exact_mod_cast h)

theorem fixed2Int_intCast_div100 (n : ℤ) : fixed2Int ((n : ℚ) / 100) = n := by
  unfold fixed2Int
  rw [div_mul_cancel₀ _ (by norm_num : (100:ℚ) ≠ 0), add_comm, Int.floor_add_int]
  norm_num

theorem jsAbs_of_nonneg (q : ℚ) (hq : 0 ≤ q) : jsAbs q = q := by
  unfold jsAbs
  rw [if_neg (not_lt.mpr hq)]

theorem round2_eq_of_nonneg (q : ℚ) (hq : 0 ≤ q) :
    round2 q = ((fixed2Int q : ℤ) : ℚ) / 100 := by
  unfold round2
  rw [jsAbs_of_nonneg q hq, if_neg (not_lt.mpr hq), one_mul]

theorem round2_nonneg (q : ℚ) (hq : 0 ≤ q) : 0 ≤ round2 q := by
  rw [round2_eq_of_nonneg q hq]
  exact div_nonneg (by exact_mod_cast fixed2Int_nonneg q hq) (by norm_num)

/-- Rendering a two-decimal rounding changes nothing: for a nonnegative
level, `q.toFixed(2)` is exactly the canonical two-decimal rendering of
`round2 q`. -/
theorem toFixed2Str_round2 (q : ℚ) (hq : 0 ≤ q) :
    toFixed2Str (round2 q) = toFixed2Str q := by
  have h2 : 0 ≤ round2 q := round2_nonneg q hq
  unfold toFixed2Str toFixed2Sign toFixed2Mag
  rw [if_neg (not_lt.mpr hq), if_neg (not_lt.mpr h2), jsAbs_of_nonneg q hq,
      jsAbs_of_nonneg _ h2, round2_eq_of_nonneg q hq, fixed2Int_intCast_div100]

/-- The `'+'`/`''` prefix computed from `change.startsWith('-')` is `'+'`
exactly for a nonnegative change. -/
theorem plusSign_eq (c : ℚ) :
    (if toFixed2Sign c = "-" then "" else "+") = (if 0 ≤ c then "+" else "") := by
  unfold toFixed2Sign
  by_cases hc : c < 0
  · simp [hc, not_le.mpr hc]
  · simp [hc, not_lt.mp hc]

theorem adjustOldValue_eq (cp : Option PracticeItem) (d : ℚ)
    (hd : specOldDifficulty cp = some d) (hdpos : 0 < d) (hdr : round2 d = d) :
    adjustOldValue cp = d := by
  rcases cp with _ | p
  · simp [specOldDifficulty] at hd
    simp [adjustOldValue, ← hd]
  · rcases hp : p.difficulty with _ | _ | t | q | b | a <;>
      simp [specOldDifficulty, hp] at hd
    subst hd
    simp [adjustOldValue, hp, ne_of_gt hdpos]
    exact hdr

/-- **C3.** Difficulty adaptation is server-side: `adjustDifficulty` sends
only the direction to the backend; on a successful response the new level it
reports is the response's `level` field rounded to two decimals, and the
displayed change is that rounded server level minus the current practice
item's difficulty (taken as `1.00` when absent — `specOldDifficulty`),
prefixed with `'+'` when non-negative.  Hypotheses pin the implicit
preconditions: a logged-in user, a numeric positive two-decimal current
difficulty, and a nonnegative server level. -/
theorem adjustDifficulty_server_level
    (u : User) (dir : DifficultyDirection) (s : PracticeState) (lvl d : ℚ)
    (hd : specOldDifficulty s.currentPractice = some d)
    (hdpos : 0 < d) (hdr : round2 d = d) (hlvl : 0 ≤ lvl) :
    (adjustDifficulty (some u) dir (.ok { success := true, level := lvl }) s).request
      = some { direction := dir } ∧
    (adjustDifficulty (some u) dir (.ok { success := true, level := lvl }) s).shownNewLevel
      = some (toFixed2Str (round2 lvl)) ∧
    (adjustDifficulty (some u) dir
        (.ok { success := true, level := lvl }) s).state.difficultyChange
      = some ((if 0 ≤ round2 lvl - d then "+" else "") ++ toFixed2Str (round2 lvl - d)) := by
  have hov := adjustOldValue_eq s.currentPractice d hd hdpos hdr
  refine ⟨?_, ?_, ?_⟩
  · simp [adjustDifficulty]
  · simp [adjustDifficulty]
    exact (toFixed2Str_round2 lvl hlvl).symm
  · simp [adjustDifficulty, hov, plusSign_eq]

theorem adjustDifficulty_server_level_witness :
    (adjustDifficulty (some { _id := "u1" }) .up (.ok { success := true, level := 7 / 2 })
        sampleState).request = some { direction := .up } ∧
    (adjustDifficulty (some { _id := "u1" }) .up (.ok { success := true, level := 7 / 2 })
        sampleState).shownNewLevel = some "3.50" ∧
    (adjustDifficulty (some { _id := "u1" }) .up (.ok { success := true, level := 7 / 2 })
        sampleState).state.difficultyChange = some "+1.50" := by
  have h := adjustDifficulty_server_level { _id := "u1" } .up sampleState (7 / 2) 2 rfl
    (by norm_num) (by norm_num [round2, fixed2Int, jsAbs]) (by norm_num)
  refine ⟨h.1, ?_, ?_⟩
  · rw [h.2.1]
    norm_num [toFixed2Str, toFixed2Sign, toFixed2Mag, round2, fixed2Int, jsAbs]
    all_goals decide
  · rw [h.2.2]
    norm_num [toFixed2Str, toFixed2Sign, toFixed2Mag, round2, fixed2Int, jsAbs]
    all_goals decide
